import Mathlib

/-!
Verification of the Nebraska channel CRUD surface (pkg/api/channels.go).

The Go source operates against a relational store.  We embed the store as an
explicit `DB` state (channel rows, package rows, activity rows) and each API
method as a pure function from the state to a new state paired with an
`Except` result, mirroring the Go control flow line by line.

Parts of the repository referenced by channels.go but not contained in the
excerpted sources (the `Arch` validity test, `GetPackage`, pagination
parameter validation and the activity-entry writer) are modelled from the
specification; each such definition carries a doc comment saying so.
-/

namespace Nebraska

/-- Architecture values, as in Go a plain unsigned integer (`type Arch uint`). -/
abbrev Arch := Nat

/-- Modelled from the spec: the repository's `Arch.IsValid` method is not under
src/.  The spec names a fixed set of supported architectures; we model validity
as membership in the four-value enumeration starting at zero. -/
def Arch.IsValid (arch : Arch) : Bool := arch ≤ 3

/-- Package row.  Modelled from the spec's data model: identifier, owning
application, architecture, version, artifact reference (URL/hash/size) and the
set of channel identifiers on which the package is blacklisted (the Go
`Package` struct is not under src/). -/
structure Package where
  ID : String
  Version : String
  ApplicationID : String
  Arch : Arch
  URL : String
  Hash : String
  Size : String
  ChannelsBlacklist : List String
  deriving DecidableEq

/-- Channel struct, following the Go `Channel` struct field by field.
`PackageID` embeds `dat.NullString`: the empty string stands for SQL NULL, the
only test the Go code performs is `channel.PackageID.String != ""`.  `Package`
is not a table column; it is populated only by the resolved read queries. -/
structure Channel where
  ID : String
  Name : String
  Color : String
  CreatedTs : Nat
  ApplicationID : String
  PackageID : String
  Package : Option Package
  Arch : Arch
  deriving DecidableEq

/-- Modelled from the spec: an activity record has a type, a severity, a
subject (version and application) and the channel it concerns (the activity
source file is not under src/). -/
structure Activity where
  Class : Nat
  Severity : Nat
  Version : String
  ApplicationID : String
  ChannelID : String
  deriving DecidableEq

/-- Modelled from the spec: the activity type emitted when a channel's package
pointer is updated. -/
def activityChannelPackageUpdated : Nat := 6

/-- Modelled from the spec: the informational activity severity. -/
def activityInfo : Nat := 2

/-- The relational store the API mutates: channel rows, package rows and the
activity log. -/
structure DB where
  channels : List Channel
  packages : List Package
  activity : List Activity
  deriving DecidableEq

/-- Errors surfaced by the channel API.  `ErrInvalidPackage` and
`ErrBlacklistedChannel` are declared in channels.go; `ErrArchMismatch`,
`ErrInvalidArch` and `ErrNoRowsAffected` are declared elsewhere in the
repository; `ErrNotFound` is the store's no-rows-in-result error returned by
lookups of a missing row. -/
inductive ApiError where
  | ErrInvalidPackage
  | ErrBlacklistedChannel
  | ErrArchMismatch
  | ErrInvalidArch
  | ErrNoRowsAffected
  | ErrNotFound
  deriving DecidableEq

/-- Modelled from the spec: `GetPackage(id)` (packages source file not under
src/) returns the package row identified by the id provided, or the store's
not-found error. -/
def GetPackage (db : DB) (packageID : String) : Except ApiError Package :=
  match db.packages.find? (fun p => p.ID == packageID) with
  | some pkg => Except.ok pkg
  | none => Except.error ApiError.ErrNotFound

/-- `validatePackage` from channels.go: checks that the package belongs to the
application provided, that its architecture matches the channel architecture,
and that the channel is not in the package's channels blacklist.  Returns the
package if everything is ok. -/
def validatePackage (db : DB) (packageID channelID appID : String)
    (channelArch : Arch) : Except ApiError Package :=
  match GetPackage db packageID with
  | Except.ok pkg =>
      if pkg.ApplicationID ≠ appID then Except.error ApiError.ErrInvalidPackage
      else if pkg.Arch ≠ channelArch then Except.error ApiError.ErrArchMismatch
      else if channelID ∈ pkg.ChannelsBlacklist then
        Except.error ApiError.ErrBlacklistedChannel
      else Except.ok pkg
  | Except.error e => Except.error e

/-- The `One("package", packagesQuery().Where("package.id = channel.package_id"))`
sub-document of `channelsQuery`: resolves a channel row's embedded package from
the package table at read time; a NULL package reference resolves to nothing. -/
def resolveChannel (db : DB) (row : Channel) : Channel :=
  { row with
    Package :=
      if row.PackageID = "" then none
      else db.packages.find? (fun p => p.ID == row.PackageID) }

/-- `GetChannel` from channels.go: returns the channel identified by the id
provided, resolved through `channelsQuery`. -/
def GetChannel (db : DB) (channelID : String) : Except ApiError Channel :=
  match db.channels.find? (fun c => c.ID == channelID) with
  | some row => Except.ok (resolveChannel db row)
  | none => Except.error ApiError.ErrNotFound

/-- `AddChannel` from channels.go: validates the architecture, then the package
placement when a package reference is present, then inserts the whitelisted
columns (name, color, application_id, package_id, arch); the store generates
the id and creation timestamp, returned via `Returning("*")`. -/
def AddChannel (db : DB) (channel : Channel) (newID : String) (now : Nat) :
    DB × Except ApiError Channel :=
  if !(Arch.IsValid channel.Arch) then (db, Except.error ApiError.ErrInvalidArch)
  else
    match (if channel.PackageID ≠ "" then
            (validatePackage db channel.PackageID channel.ID channel.ApplicationID
              channel.Arch).map (fun _ => ())
           else Except.ok ()) with
    | Except.error e => (db, Except.error e)
    | Except.ok _ =>
        ({ db with channels := db.channels ++
            [{ ID := newID, Name := channel.Name, Color := channel.Color,
               CreatedTs := now, ApplicationID := channel.ApplicationID,
               PackageID := channel.PackageID, Package := none,
               Arch := channel.Arch }] },
         Except.ok { channel with ID := newID, CreatedTs := now })

/-- The update statement of `UpdateChannel` (`Update("channel").SetWhitelist(
channel, "name", "color", "package_id").Where("id = $1", channel.ID).Exec()`
followed by the `RowsAffected` check): writes only the whitelisted columns of
every row whose id matches, and reports `ErrNoRowsAffected` when no row
matched. -/
def updateChannelExec (db : DB) (channel : Channel) : DB × Except ApiError Unit :=
  ({ db with
     channels := db.channels.map (fun c =>
       if c.ID == channel.ID then
         { c with Name := channel.Name, Color := channel.Color,
                  PackageID := channel.PackageID }
       else c) },
   if db.channels.countP (fun c => c.ID == channel.ID) = 0 then
     Except.error ApiError.ErrNoRowsAffected
   else Except.ok ())

/-- Modelled from the spec: `newChannelActivityEntry` (activity source file not
under src/) appends one activity record carrying the type, severity, package
version, application and channel. -/
def newChannelActivityEntry (db : DB) (cls severity : Nat)
    (version appID channelID : String) : DB :=
  { db with
    activity := db.activity ++
      [{ Class := cls, Severity := severity, Version := version,
         ApplicationID := appID, ChannelID := channelID }] }

/-- `UpdateChannel` from channels.go: loads the channel before the update,
validates the new package placement against the stored application and
architecture when a package reference is present, executes the whitelisted
update, and emits a channel activity entry when the package pointer changed
and a package was validated. -/
def UpdateChannel (db : DB) (channel : Channel) : DB × Except ApiError Unit :=
  match GetChannel db channel.ID with
  | Except.error e => (db, Except.error e)
  | Except.ok channelBeforeUpdate =>
    match (if channel.PackageID ≠ "" then
            (validatePackage db channel.PackageID channel.ID
              channelBeforeUpdate.ApplicationID channelBeforeUpdate.Arch).map some
           else Except.ok none) with
    | Except.error e => (db, Except.error e)
    | Except.ok pkg =>
      match updateChannelExec db channel with
      | (db', Except.error e) => (db', Except.error e)
      | (db', Except.ok _) =>
        match pkg with
        | some p =>
          if channelBeforeUpdate.PackageID ≠ channel.PackageID then
            (newChannelActivityEntry db' activityChannelPackageUpdated activityInfo
              p.Version p.ApplicationID channel.ID, Except.ok ())
          else (db', Except.ok ())
        | none => (db', Except.ok ())

/-- `DeleteChannel` from channels.go: removes the rows whose id matches and
reports `ErrNoRowsAffected` when no row matched. -/
def DeleteChannel (db : DB) (channelID : String) : DB × Except ApiError Unit :=
  ({ db with channels := db.channels.filter (fun c => !(c.ID == channelID)) },
   if db.channels.countP (fun c => c.ID == channelID) = 0 then
     Except.error ApiError.ErrNoRowsAffected
   else Except.ok ())

/-- The ordering of `channelsQuery`'s `OrderBy("name ASC")`. -/
def nameLE (a b : Channel) : Prop := a.Name ≤ b.Name

instance : DecidableRel nameLE := fun a b =>
  inferInstanceAs (Decidable (a.Name ≤ b.Name))

instance : IsTotal Channel nameLE := ⟨fun a b => le_total a.Name b.Name⟩

instance : IsTrans Channel nameLE := ⟨fun _ _ _ h h2 => le_trans h h2⟩

/-- Modelled from the spec: `validatePaginationParams` is not under src/;
out-of-range pagination parameters are replaced by defaults (first page, ten
rows per page) before the query runs. -/
def validatePaginationParams (page perPage : Nat) : Nat × Nat :=
  (if page < 1 then 1 else page,
   if perPage < 1 then 10 else if perPage > 100 then 10 else perPage)

/-- `getSpecificChannels` from channels.go: all channels whose id is among the
ids provided, through `channelsQuery` (resolved, ordered by name). -/
def getSpecificChannels (db : DB) (channelIDs : List String) : List Channel :=
  ((db.channels.filter (fun c => channelIDs.contains c.ID)).insertionSort
    nameLE).map (resolveChannel db)

/-- `GetChannels` from channels.go: all channels of the application provided,
through `channelsQuery` (resolved, ordered by name), paginated after the
pagination parameters have been validated. -/
def GetChannels (db : DB) (appID : String) (page perPage : Nat) : List Channel :=
  ((((db.channels.filter (fun c => c.ApplicationID == appID)).insertionSort
      nameLE).drop
        (((validatePaginationParams page perPage).1 - 1) *
          (validatePaginationParams page perPage).2)).take
    (validatePaginationParams page perPage).2).map (resolveChannel db)

/-- The channel side of the catalog invariant stated by the spec: a stored
channel with a package set never points to a package of a mismatched
application or architecture, and never to a package whose channels blacklist
contains the channel. -/
def channelPackageInvariant (db : DB) : Prop :=
  ∀ c ∈ db.channels, c.PackageID ≠ "" →
    ∀ pkg ∈ db.packages, pkg.ID = c.PackageID →
      pkg.ApplicationID = c.ApplicationID ∧ pkg.Arch = c.Arch ∧
      c.ID ∉ pkg.ChannelsBlacklist

/-- Channel ids are a primary key of the channel table. -/
def uniqueChannelIDs (db : DB) : Prop :=
  db.channels.Pairwise (fun a b => a.ID ≠ b.ID)

/-- Package ids are a primary key of the package table. -/
def uniquePackageIDs (db : DB) : Prop :=
  db.packages.Pairwise (fun a b => a.ID ≠ b.ID)

deriving instance DecidableEq for Except

instance (db : DB) : Decidable (channelPackageInvariant db) := by
  unfold channelPackageInvariant
  infer_instance

instance (db : DB) : Decidable (uniqueChannelIDs db) := by
  unfold uniqueChannelIDs
  infer_instance

instance (db : DB) : Decidable (uniquePackageIDs db) := by
  unfold uniquePackageIDs
  infer_instance

/-! ### Concrete stores and rows used by the witnesses and counterexamples -/

def pkgC1 : Package :=
  { ID := "p1", Version := "1.0.0", ApplicationID := "app1", Arch := 1,
    URL := "http://u", Hash := "h", Size := "10", ChannelsBlacklist := ["c2"] }

def dbC1 : DB := { channels := [], packages := [pkgC1], activity := [] }

def pkgC2 : Package :=
  { ID := "p2", Version := "2.2.0", ApplicationID := "app2", Arch := 0,
    URL := "", Hash := "", Size := "", ChannelsBlacklist := ["cGen"] }

def chanC2 : Channel :=
  { ID := "", Name := "new", Color := "", CreatedTs := 0,
    ApplicationID := "app2", PackageID := "p2", Package := none, Arch := 0 }

def dbC2 : DB := { channels := [], packages := [pkgC2], activity := [] }

def pkgC2w : Package :=
  { ID := "pw", Version := "1.1.1", ApplicationID := "appW", Arch := 2,
    URL := "", Hash := "", Size := "", ChannelsBlacklist := [] }

def chanC2w : Channel :=
  { ID := "cw", Name := "w", Color := "", CreatedTs := 0,
    ApplicationID := "appW", PackageID := "", Package := none, Arch := 2 }

def dbC2w : DB := { channels := [chanC2w], packages := [pkgC2w], activity := [] }

def updC2w : Channel := { chanC2w with PackageID := "pw" }

def pkgC3 : Package :=
  { ID := "p3", Version := "1.2.3", ApplicationID := "appOther", Arch := 1,
    URL := "", Hash := "", Size := "", ChannelsBlacklist := ["c3"] }

def chanC3 : Channel :=
  { ID := "c3", Name := "stable", Color := "", CreatedTs := 0,
    ApplicationID := "appC3", PackageID := "", Package := none, Arch := 1 }

def dbC3 : DB := { channels := [chanC3], packages := [pkgC3], activity := [] }

def updC3 : Channel := { chanC3 with PackageID := "p3" }

def pkgC3w : Package :=
  { ID := "p3w", Version := "4.5.6", ApplicationID := "appC3w", Arch := 1,
    URL := "", Hash := "", Size := "", ChannelsBlacklist := ["c3w"] }

def chanC3w : Channel :=
  { ID := "c3w", Name := "lts", Color := "", CreatedTs := 0,
    ApplicationID := "appC3w", PackageID := "", Package := none, Arch := 1 }

def dbC3w : DB := { channels := [chanC3w], packages := [pkgC3w], activity := [] }

def updC3w : Channel := { chanC3w with PackageID := "p3w" }

def pkgC4 : Package :=
  { ID := "p4", Version := "0.1.0", ApplicationID := "app4", Arch := 0,
    URL := "", Hash := "", Size := "", ChannelsBlacklist := [] }

def chanC4 : Channel :=
  { ID := "c4", Name := "main", Color := "", CreatedTs := 0,
    ApplicationID := "app4", PackageID := "p4", Package := none, Arch := 0 }

def dbC4 : DB := { channels := [chanC4], packages := [pkgC4], activity := [] }

def clrC4 : Channel := { chanC4 with PackageID := "" }

def pkgC4a : Package :=
  { ID := "p4a", Version := "0.1.0", ApplicationID := "app4a", Arch := 0,
    URL := "", Hash := "", Size := "", ChannelsBlacklist := [] }

def pkgC4b : Package :=
  { ID := "p4b", Version := "0.2.0", ApplicationID := "app4a", Arch := 0,
    URL := "", Hash := "", Size := "", ChannelsBlacklist := [] }

def chanC4w : Channel :=
  { ID := "c4w", Name := "main", Color := "", CreatedTs := 0,
    ApplicationID := "app4a", PackageID := "p4a", Package := none, Arch := 0 }

def dbC4w : DB :=
  { channels := [chanC4w], packages := [pkgC4a, pkgC4b], activity := [] }

def updC4w : Channel := { chanC4w with PackageID := "p4b" }

def chanC5 : Channel :=
  { ID := "c1", Name := "stable", Color := "blue", CreatedTs := 0,
    ApplicationID := "app1", PackageID := "nonexistent", Package := none,
    Arch := 7 }

def dbC5 : DB := { channels := [], packages := [], activity := [] }

def pkgC6 : Package :=
  { ID := "p6", Version := "2.0.0", ApplicationID := "app6", Arch := 2,
    URL := "http://u", Hash := "h", Size := "5", ChannelsBlacklist := [] }

def chanC6 : Channel :=
  { ID := "c6", Name := "beta", Color := "red", CreatedTs := 4,
    ApplicationID := "app6", PackageID := "p6", Package := none, Arch := 2 }

def dbC6 : DB := { channels := [chanC6], packages := [pkgC6], activity := [] }

def chanC7 : Channel :=
  { ID := "c7", Name := "alpha", Color := "", CreatedTs := 0,
    ApplicationID := "app7", PackageID := "", Package := none, Arch := 0 }

def dbC7 : DB := { channels := [chanC7], packages := [], activity := [] }

def updC7 : Channel := { chanC7 with ID := "missing" }

def chanC8 : Channel :=
  { ID := "c8", Name := "nightly", Color := "grey", CreatedTs := 2,
    ApplicationID := "app8", PackageID := "", Package := none, Arch := 1 }

def dbC8 : DB := { channels := [chanC8], packages := [], activity := [] }

def updC8 : Channel :=
  { chanC8 with Name := "renamed", ApplicationID := "evil", Arch := 3 }

def resC8 : Channel := { chanC8 with Name := "renamed" }

def pkgC9 : Package :=
  { ID := "p9", Version := "3.1.0", ApplicationID := "app9", Arch := 1,
    URL := "http://u", Hash := "h", Size := "1", ChannelsBlacklist := [] }

def chanC9 : Channel :=
  { ID := "c9", Name := "edge", Color := "green", CreatedTs := 1,
    ApplicationID := "app9", PackageID := "p9", Package := none, Arch := 1 }

def dbC9 : DB := { channels := [chanC9], packages := [pkgC9], activity := [] }

def clrC9 : Channel := { chanC9 with PackageID := "" }

def chanC10a : Channel :=
  { ID := "ca", Name := "beta", Color := "", CreatedTs := 0,
    ApplicationID := "appX", PackageID := "", Package := none, Arch := 0 }

def chanC10b : Channel :=
  { ID := "cb", Name := "alpha", Color := "", CreatedTs := 0,
    ApplicationID := "appX", PackageID := "", Package := none, Arch := 0 }

def chanC10c : Channel :=
  { ID := "cc", Name := "gamma", Color := "", CreatedTs := 0,
    ApplicationID := "appY", PackageID := "", Package := none, Arch := 0 }

def dbC10 : DB :=
  { channels := [chanC10a, chanC10b, chanC10c], packages := [], activity := [] }

/-! ### Basic facts about the embedded operations -/

theorem GetPackage_ok_find {db : DB} {packageID : String} {pkg : Package}
    (h : GetPackage db packageID = Except.ok pkg) :
    db.packages.find? (fun p => p.ID == packageID) = some pkg := by
  unfold GetPackage at h
  cases hf : db.packages.find? (fun p => p.ID == packageID) with
  | none => rw [hf] at h; exact absurd h (by simp)
  | some q => rw [hf] at h; cases h; rfl

theorem GetPackage_ok_mem {db : DB} {packageID : String} {pkg : Package}
    (h : GetPackage db packageID = Except.ok pkg) :
    pkg ∈ db.packages ∧ pkg.ID = packageID := by
  have hf := GetPackage_ok_find h
  refine ⟨List.mem_of_find?_eq_some hf, ?_⟩
  have := List.find?_some hf
  simpa using this

theorem validatePackage_ok {db : DB} {packageID channelID appID : String}
    {channelArch : Arch} {pkg : Package}
    (h : validatePackage db packageID channelID appID channelArch = Except.ok pkg) :
    GetPackage db packageID = Except.ok pkg ∧ pkg.ApplicationID = appID ∧
    pkg.Arch = channelArch ∧ channelID ∉ pkg.ChannelsBlacklist := by
  unfold validatePackage at h
  cases hg : GetPackage db packageID with
  | error e => rw [hg] at h; exact absurd h (by simp)
  | ok q =>
    rw [hg] at h
    by_cases h1 : q.ApplicationID = appID
    · by_cases h2 : q.Arch = channelArch
      · by_cases h3 : channelID ∈ q.ChannelsBlacklist
        · simp [h1, h2, h3] at h
        · simp [h1, h2, h3] at h
          subst h
          exact ⟨rfl, h1, h2, h3⟩
      · simp [h1, h2] at h
    · simp [h1] at h

theorem validatePackage_blacklisted {db : DB}
    {packageID channelID appID : String} {channelArch : Arch} {pkg : Package}
    (hget : GetPackage db packageID = Except.ok pkg)
    (h1 : pkg.ApplicationID = appID) (h2 : pkg.Arch = channelArch)
    (h3 : channelID ∈ pkg.ChannelsBlacklist) :
    validatePackage db packageID channelID appID channelArch =
      Except.error ApiError.ErrBlacklistedChannel := by
  unfold validatePackage
  rw [hget]
  simp [h1, h2, h3]

theorem GetChannel_ok_row {db : DB} {channelID : String} {channel : Channel}
    (h : GetChannel db channelID = Except.ok channel) :
    ∃ row ∈ db.channels, row.ID = channelID ∧
      db.channels.find? (fun c => c.ID == channelID) = some row ∧
      channel = resolveChannel db row := by
  unfold GetChannel at h
  cases hf : db.channels.find? (fun c => c.ID == channelID) with
  | none => rw [hf] at h; exact absurd h (by simp)
  | some row =>
    rw [hf] at h
    cases h
    exact ⟨row, List.mem_of_find?_eq_some hf, by simpa using List.find?_some hf,
      rfl, rfl⟩

theorem resolveChannel_fields (db : DB) (row : Channel) :
    (resolveChannel db row).ID = row.ID ∧
    (resolveChannel db row).Name = row.Name ∧
    (resolveChannel db row).ApplicationID = row.ApplicationID ∧
    (resolveChannel db row).Arch = row.Arch ∧
    (resolveChannel db row).CreatedTs = row.CreatedTs ∧
    (resolveChannel db row).PackageID = row.PackageID :=
  ⟨rfl, rfl, rfl, rfl, rfl, rfl⟩

/-- A `find?` hit on a list whose ids are pairwise distinct is the only element
bearing that id. -/
theorem find_unique_pkg {l : List Package} {x : String} {pkg : Package}
    (hu : l.Pairwise (fun a b => a.ID ≠ b.ID))
    (hf : l.find? (fun p => p.ID == x) = some pkg) :
    ∀ p ∈ l, p.ID = x → p = pkg := by
  intro p hp hpid
  by_cases hpe : p = pkg
  · exact hpe
  · have hmem := List.mem_of_find?_eq_some hf
    have hid : pkg.ID = x := by simpa using List.find?_some hf
    have hsymm : Symmetric (fun a b : Package => a.ID ≠ b.ID) :=
      fun a b h => fun he => h he.symm
    have := hu.forall hsymm hp hmem hpe
    exact absurd (hpid.trans hid.symm) this

theorem find_unique_chan {l : List Channel} {x : String} {row : Channel}
    (hu : l.Pairwise (fun a b => a.ID ≠ b.ID))
    (hf : l.find? (fun c => c.ID == x) = some row) :
    ∀ c ∈ l, c.ID = x → c = row := by
  intro c hc hcid
  by_cases hce : c = row
  · exact hce
  · have hmem := List.mem_of_find?_eq_some hf
    have hid : row.ID = x := by simpa using List.find?_some hf
    have hsymm : Symmetric (fun a b : Channel => a.ID ≠ b.ID) :=
      fun a b h => fun he => h he.symm
    have := hu.forall hsymm hc hmem hce
    exact absurd (hcid.trans hid.symm) this

/-! ### C1 -/

/-- C1: `validatePackage` fails with `ErrInvalidPackage` when the package's
owning application differs from the given application, with `ErrArchMismatch`
when (applications matching) the package's architecture differs from the given
channel architecture, with `ErrBlacklistedChannel` when (application and
architecture matching) the channel id is in the package's channels blacklist;
when none of these hold and the package exists it returns the package with no
error. -/
theorem validatePackage_placement (db : DB) (packageID channelID appID : String)
    (channelArch : Arch) (pkg : Package)
    (hget : GetPackage db packageID = Except.ok pkg) :
    (pkg.ApplicationID ≠ appID →
      validatePackage db packageID channelID appID channelArch =
        Except.error ApiError.ErrInvalidPackage) ∧
    (pkg.ApplicationID = appID → pkg.Arch ≠ channelArch →
      validatePackage db packageID channelID appID channelArch =
        Except.error ApiError.ErrArchMismatch) ∧
    (pkg.ApplicationID = appID → pkg.Arch = channelArch →
      channelID ∈ pkg.ChannelsBlacklist →
      validatePackage db packageID channelID appID channelArch =
        Except.error ApiError.ErrBlacklistedChannel) ∧
    (pkg.ApplicationID = appID → pkg.Arch = channelArch →
      channelID ∉ pkg.ChannelsBlacklist →
      validatePackage db packageID channelID appID channelArch = Except.ok pkg) := by
  unfold validatePackage
  rw [hget]
  refine ⟨fun h1 => ?_, fun h1 h2 => ?_, fun h1 h2 h3 => ?_, fun h1 h2 h3 => ?_⟩
  · simp [h1]
  · simp [h1, h2]
  · simp [h1, h2, h3]
  · simp [h1, h2, h3]

theorem validatePackage_placement_witness :
    pkgC1.ApplicationID = "app1" ∧ pkgC1.Arch = 1 ∧
    "c2" ∈ pkgC1.ChannelsBlacklist ∧
    validatePackage dbC1 "p1" "c2" "app1" 1 =
      Except.error ApiError.ErrBlacklistedChannel :=
  ⟨rfl, rfl, by decide,
    (validatePackage_placement dbC1 "p1" "c2" "app1" 1 pkgC1 rfl).2.2.1
      rfl rfl (by decide)⟩

/-! ### C5 -/

/-- C5: for every channel whose architecture value is not valid, `AddChannel`
returns the `ErrInvalidArch` validation error synchronously, before any
validation of the package (the equation holds for every store, whatever its
package table contains) and without inserting any row (the store is returned
unchanged). -/
theorem addChannel_invalid_arch (db : DB) (channel : Channel) (newID : String)
    (now : Nat) (h : Arch.IsValid channel.Arch = false) :
    AddChannel db channel newID now = (db, Except.error ApiError.ErrInvalidArch) := by
  unfold AddChannel
  simp [h]

theorem addChannel_invalid_arch_witness :
    Arch.IsValid chanC5.Arch = false ∧
    AddChannel dbC5 chanC5 "c9" 3 = (dbC5, Except.error ApiError.ErrInvalidArch) :=
  ⟨by decide, addChannel_invalid_arch dbC5 chanC5 "c9" 3 (by decide)⟩

/-! ### C6 -/

theorem GetPackage_err_find {db : DB} {packageID : String}
    (h : GetPackage db packageID = Except.error ApiError.ErrNotFound) :
    db.packages.find? (fun p => p.ID == packageID) = none := by
  unfold GetPackage at h
  cases hf : db.packages.find? (fun p => p.ID == packageID) with
  | none => rfl
  | some q => rw [hf] at h; exact absurd h (by simp)

/-- C6: for every existing channel identifier, `GetChannel` returns a fully
resolved snapshot: the embedded `Package` field is the package row referenced
by the channel's package id at read time, and is absent when the channel has no
package set (or the reference resolves to no row). -/
theorem getChannel_resolved (db : DB) (channelID : String) (channel : Channel)
    (h : GetChannel db channelID = Except.ok channel) :
    (channel.PackageID = "" → channel.Package = none) ∧
    (∀ pkg, channel.PackageID ≠ "" →
      GetPackage db channel.PackageID = Except.ok pkg →
      channel.Package = some pkg) ∧
    (channel.PackageID ≠ "" →
      GetPackage db channel.PackageID = Except.error ApiError.ErrNotFound →
      channel.Package = none) := by
  obtain ⟨row, hmem, hid, hfind, heq⟩ := GetChannel_ok_row h
  subst heq
  refine ⟨fun he => ?_, fun pkg hne hget => ?_, fun hne hget => ?_⟩
  · have he' : row.PackageID = "" := he
    simp [resolveChannel, he']
  · have hne' : row.PackageID ≠ "" := hne
    have hf := GetPackage_ok_find hget
    simp only [resolveChannel]
    rw [if_neg hne']
    exact hf
  · have hne' : row.PackageID ≠ "" := hne
    have hf := GetPackage_err_find hget
    simp only [resolveChannel]
    rw [if_neg hne']
    exact hf

theorem getChannel_resolved_witness :
    GetChannel dbC6 "c6" = Except.ok (resolveChannel dbC6 chanC6) ∧
    (resolveChannel dbC6 chanC6).Package = some pkgC6 :=
  ⟨rfl,
    (getChannel_resolved dbC6 "c6" (resolveChannel dbC6 chanC6) rfl).2.1 pkgC6
      (by decide) rfl⟩

/-! ### C7 -/

/-- C7: when `DeleteChannel`, or the update statement of `UpdateChannel`,
targets a channel identifier matching no stored row, the operation returns
`ErrNoRowsAffected` rather than silently succeeding, and mutates nothing (the
store is returned unchanged). -/
theorem noRowsAffected_missing_row (db : DB) (channel : Channel)
    (channelID : String) :
    ((∀ c ∈ db.channels, c.ID ≠ channelID) →
      DeleteChannel db channelID = (db, Except.error ApiError.ErrNoRowsAffected)) ∧
    ((∀ c ∈ db.channels, c.ID ≠ channel.ID) →
      updateChannelExec db channel =
        (db, Except.error ApiError.ErrNoRowsAffected)) := by
  constructor
  · intro h
    have hcount : db.channels.countP (fun c => c.ID == channelID) = 0 :=
      List.countP_eq_zero.mpr (fun c hc => by simp [h c hc])
    have hfilter : db.channels.filter (fun c => !(c.ID == channelID)) = db.channels :=
      List.filter_eq_self.mpr (fun c hc => by simp [h c hc])
    unfold DeleteChannel
    rw [hfilter, hcount]
    simp
  · intro h
    have hcount : db.channels.countP (fun c => c.ID == channel.ID) = 0 :=
      List.countP_eq_zero.mpr (fun c hc => by simp [h c hc])
    have hmap : db.channels.map (fun c =>
        if c.ID == channel.ID then
          { c with Name := channel.Name, Color := channel.Color,
                   PackageID := channel.PackageID }
        else c) = db.channels := by
      conv_rhs => rw [← List.map_id db.channels]
      exact List.map_congr_left (fun c hc => by simp [h c hc])
    unfold updateChannelExec
    rw [hmap, hcount]
    simp

theorem noRowsAffected_missing_row_witness :
    DeleteChannel dbC7 "missing" = (dbC7, Except.error ApiError.ErrNoRowsAffected) ∧
    updateChannelExec dbC7 updC7 = (dbC7, Except.error ApiError.ErrNoRowsAffected) :=
  ⟨(noRowsAffected_missing_row dbC7 updC7 "missing").1 (by decide),
   (noRowsAffected_missing_row dbC7 updC7 "missing").2 (by decide)⟩

/-! ### C9 -/

theorem updateChannel_clear_eq (db : DB) (channel : Channel)
    (hempty : channel.PackageID = "")
    (hrow : ∃ c ∈ db.channels, c.ID = channel.ID) :
    UpdateChannel db channel = ((updateChannelExec db channel).1, Except.ok ()) := by
  obtain ⟨c, hc, hcid⟩ := hrow
  have hfs : (db.channels.find? (fun x => x.ID == channel.ID)).isSome :=
    List.find?_isSome.mpr ⟨c, hc, by simp [hcid]⟩
  obtain ⟨row, hfind⟩ := Option.isSome_iff_exists.mp hfs
  have hget : GetChannel db channel.ID = Except.ok (resolveChannel db row) := by
    unfold GetChannel
    rw [hfind]
  have hcount : db.channels.countP (fun x => x.ID == channel.ID) ≠ 0 := by
    have hpos : 0 < db.channels.countP (fun x => x.ID == channel.ID) :=
      List.countP_pos_iff.mpr ⟨c, hc, by simp [hcid]⟩
    omega
  unfold UpdateChannel
  rw [hget]
  simp only [hempty, ne_eq, not_true_eq_false, if_false, ite_false]
  unfold updateChannelExec
  simp [hcount]

/-- C9: for every channel update whose new package reference is empty,
`UpdateChannel` performs no package-placement validation at all (it succeeds
for every content of the package table), succeeds whenever the channel row
exists, and emits no activity record even though the package pointer may have
changed. -/
theorem updateChannel_clear_package (db : DB) (channel : Channel)
    (hempty : channel.PackageID = "")
    (hrow : ∃ c ∈ db.channels, c.ID = channel.ID) :
    (UpdateChannel db channel).2 = Except.ok () ∧
    (UpdateChannel db channel).1.activity = db.activity ∧
    ∀ ps, (UpdateChannel { db with packages := ps } channel).2 = Except.ok () := by
  have h1 := updateChannel_clear_eq db channel hempty hrow
  refine ⟨by rw [h1], by rw [h1]; rfl, fun ps => ?_⟩
  have h2 := updateChannel_clear_eq { db with packages := ps } channel hempty hrow
  rw [h2]

theorem updateChannel_clear_package_witness :
    clrC9.PackageID = "" ∧ chanC9.PackageID ≠ "" ∧
    (UpdateChannel dbC9 clrC9).2 = Except.ok () ∧
    (UpdateChannel dbC9 clrC9).1.activity = dbC9.activity :=
  ⟨rfl, by decide,
    (updateChannel_clear_package dbC9 clrC9 rfl ⟨chanC9, by decide, rfl⟩).1,
    (updateChannel_clear_package dbC9 clrC9 rfl ⟨chanC9, by decide, rfl⟩).2.1⟩

/-! ### C8 -/

theorem updateChannel_state_shape (db : DB) (channel : Channel) :
    ((UpdateChannel db channel).1.channels = db.channels ∨
     (UpdateChannel db channel).1.channels =
       db.channels.map (fun c =>
         if c.ID == channel.ID then
           { c with Name := channel.Name, Color := channel.Color,
                    PackageID := channel.PackageID }
         else c)) ∧
    (UpdateChannel db channel).1.packages = db.packages := by
  have hexec1 : ∀ db' r, updateChannelExec db channel = (db', r) →
      db'.channels = db.channels.map (fun c =>
        if c.ID == channel.ID then
          { c with Name := channel.Name, Color := channel.Color,
                   PackageID := channel.PackageID }
        else c) ∧ db'.packages = db.packages := by
    intro db' r heq
    have h1 : (updateChannelExec db channel).1 = db' := by rw [heq]
    constructor
    · rw [← h1]
      rfl
    · rw [← h1]
      rfl
  unfold UpdateChannel
  split
  · exact ⟨Or.inl rfl, rfl⟩
  · split
    · exact ⟨Or.inl rfl, rfl⟩
    · split
      · rename_i db' e heq
        obtain ⟨h1, h2⟩ := hexec1 db' _ heq
        exact ⟨Or.inr h1, h2⟩
      · rename_i db' u heq
        obtain ⟨h1, h2⟩ := hexec1 db' _ heq
        split
        · split
          · exact ⟨Or.inr h1, h2⟩
          · exact ⟨Or.inr h1, h2⟩
        · exact ⟨Or.inr h1, h2⟩

/-- C8: for every `UpdateChannel` call, successful or failed, every stored
channel row keeps its id, owning application, architecture and creation
timestamp (only name, color and package id are ever written, and only on the
targeted row); moreover the result of the call is entirely independent of the
caller-supplied application, architecture, creation timestamp and embedded
package, so validation of a new package runs against the stored channel's
application and architecture, never the caller-supplied ones. -/
theorem updateChannel_frame (db : DB) (channel : Channel) :
    (∀ c' ∈ (UpdateChannel db channel).1.channels, ∃ c ∈ db.channels,
      c'.ID = c.ID ∧ c'.ApplicationID = c.ApplicationID ∧ c'.Arch = c.Arch ∧
      c'.CreatedTs = c.CreatedTs ∧ (c.ID ≠ channel.ID → c' = c)) ∧
    (UpdateChannel db channel).1.packages = db.packages ∧
    (∀ appID arch ts pk,
      UpdateChannel db
        { channel with ApplicationID := appID, Arch := arch,
                       CreatedTs := ts, Package := pk } =
        UpdateChannel db channel) := by
  obtain ⟨hshape, hpk⟩ := updateChannel_state_shape db channel
  refine ⟨?_, hpk, fun appID arch ts pk => rfl⟩
  intro c' hc'
  cases hshape with
  | inl h =>
    rw [h] at hc'
    exact ⟨c', hc', rfl, rfl, rfl, rfl, fun _ => rfl⟩
  | inr h =>
    rw [h] at hc'
    obtain ⟨c, hc, hfc⟩ := List.mem_map.mp hc'
    by_cases hid : c.ID == channel.ID
    · rw [if_pos hid] at hfc
      refine ⟨c, hc, ?_, ?_, ?_, ?_, fun hne => ?_⟩
      · rw [← hfc]
      · rw [← hfc]
      · rw [← hfc]
      · rw [← hfc]
      · exact absurd (by simpa using hid) hne
    · rw [if_neg hid] at hfc
      exact ⟨c, hc, by rw [← hfc], by rw [← hfc], by rw [← hfc], by rw [← hfc],
        fun _ => hfc.symm⟩

theorem updateChannel_frame_witness :
    (∃ c ∈ dbC8.channels, resC8.ID = c.ID ∧
      resC8.ApplicationID = c.ApplicationID ∧ resC8.Arch = c.Arch ∧
      resC8.CreatedTs = c.CreatedTs ∧ (c.ID ≠ updC8.ID → resC8 = c)) ∧
    (UpdateChannel dbC8 updC8).1.packages = dbC8.packages ∧
    UpdateChannel dbC8
      { updC8 with ApplicationID := "other", Arch := 2, CreatedTs := 9,
                   Package := none } =
      UpdateChannel dbC8 updC8 :=
  ⟨(updateChannel_frame dbC8 updC8).1 resC8 (by decide),
   (updateChannel_frame dbC8 updC8).2.1,
   (updateChannel_frame dbC8 updC8).2.2 "other" 2 9 none⟩

/-! ### Reduction lemmas for UpdateChannel -/

theorem updateChannel_eq_of_validate_err (db : DB) (channel before : Channel)
    (e : ApiError)
    (hbefore : GetChannel db channel.ID = Except.ok before)
    (hne : channel.PackageID ≠ "")
    (hval : validatePackage db channel.PackageID channel.ID
      before.ApplicationID before.Arch = Except.error e) :
    UpdateChannel db channel = (db, Except.error e) := by
  unfold UpdateChannel
  split
  · rename_i e' heq
    rw [hbefore] at heq
    cases heq
  · rename_i before' heq
    rw [hbefore] at heq
    injection heq with heq'
    subst heq'
    split
    · rename_i e' heq2
      rw [if_pos hne, hval] at heq2
      simp only [Except.map] at heq2
      injection heq2 with heq3
      subst heq3
      rfl
    · rename_i pkg heq2
      rw [if_pos hne, hval] at heq2
      simp [Except.map] at heq2

theorem updateChannelExec_snd_ok (db : DB) (channel : Channel)
    (hcount : db.channels.countP (fun c => c.ID == channel.ID) ≠ 0) :
    (updateChannelExec db channel).2 = Except.ok () := by
  unfold updateChannelExec
  rw [if_neg hcount]

theorem updateChannel_eq_of_validate_ok (db : DB) (channel before : Channel)
    (p : Package)
    (hbefore : GetChannel db channel.ID = Except.ok before)
    (hne : channel.PackageID ≠ "")
    (hval : validatePackage db channel.PackageID channel.ID
      before.ApplicationID before.Arch = Except.ok p)
    (hcount : db.channels.countP (fun c => c.ID == channel.ID) ≠ 0) :
    UpdateChannel db channel =
      (if before.PackageID ≠ channel.PackageID then
        (newChannelActivityEntry (updateChannelExec db channel).1
          activityChannelPackageUpdated activityInfo p.Version p.ApplicationID
          channel.ID, Except.ok ())
       else ((updateChannelExec db channel).1, Except.ok ())) := by
  unfold UpdateChannel
  split
  · rename_i e heq
    rw [hbefore] at heq
    cases heq
  · rename_i before' heq
    rw [hbefore] at heq
    injection heq with heq'
    subst heq'
    split
    · rename_i e heq2
      rw [if_pos hne, hval] at heq2
      simp [Except.map] at heq2
    · rename_i pkg heq2
      rw [if_pos hne, hval] at heq2
      simp only [Except.map] at heq2
      injection heq2 with heq3
      subst heq3
      split
      · rename_i db' e heq4
        have hsnd := updateChannelExec_snd_ok db channel hcount
        rw [heq4] at hsnd
        simp at hsnd
      · rename_i db' u heq4
        have h1 : (updateChannelExec db channel).1 = db' := by rw [heq4]
        rw [← h1]

/-! ### C3 -/

/-- C3 as stated is refuted: a package that blacklists the channel but belongs
to a different application makes the assignment fail with `ErrInvalidPackage`,
not `ErrBlacklistedChannel` (the application check runs first). -/
theorem blacklisted_assignment_counterexample :
    updC3.ID ∈ pkgC3.ChannelsBlacklist ∧
    GetPackage dbC3 updC3.PackageID = Except.ok pkgC3 ∧
    (UpdateChannel dbC3 updC3).2 = Except.error ApiError.ErrInvalidPackage ∧
    (UpdateChannel dbC3 updC3).2 ≠ Except.error ApiError.ErrBlacklistedChannel := by
  refine ⟨by decide, rfl, rfl, by decide⟩

/-- C3 (amended): for every channel and every package of the same owning
application and architecture that blacklists that channel, assigning the
package to the channel via `AddChannel` or `UpdateChannel` returns the
`ErrBlacklistedChannel` validation error and leaves the store (in particular
the channel's stored package pointer and all other stored channel state)
unchanged. -/
theorem blacklisted_assignment_rejected (db : DB) (channel : Channel)
    (pkg : Package) (before : Channel) (newID : String) (now : Nat)
    (hpkg : GetPackage db channel.PackageID = Except.ok pkg)
    (hne : channel.PackageID ≠ "")
    (hbl : channel.ID ∈ pkg.ChannelsBlacklist) :
    (GetChannel db channel.ID = Except.ok before →
      pkg.ApplicationID = before.ApplicationID → pkg.Arch = before.Arch →
      UpdateChannel db channel =
        (db, Except.error ApiError.ErrBlacklistedChannel)) ∧
    (Arch.IsValid channel.Arch = true →
      pkg.ApplicationID = channel.ApplicationID → pkg.Arch = channel.Arch →
      AddChannel db channel newID now =
        (db, Except.error ApiError.ErrBlacklistedChannel)) := by
  constructor
  · intro hbefore h1 h2
    exact updateChannel_eq_of_validate_err db channel before _ hbefore hne
      (validatePackage_blacklisted hpkg h1 h2 hbl)
  · intro hvalid h1 h2
    have hval := validatePackage_blacklisted hpkg h1 h2 hbl
    unfold AddChannel
    rw [hvalid]
    simp only [Bool.not_true, Bool.false_eq_true, if_false]
    split
    · rename_i e heq
      rw [if_pos hne, hval] at heq
      simp only [Except.map] at heq
      injection heq with heq'
      subst heq'
      rfl
    · rename_i u heq
      rw [if_pos hne, hval] at heq
      simp [Except.map] at heq

theorem blacklisted_assignment_rejected_witness :
    UpdateChannel dbC3w updC3w =
      (dbC3w, Except.error ApiError.ErrBlacklistedChannel) ∧
    AddChannel dbC3w updC3w "cNew" 7 =
      (dbC3w, Except.error ApiError.ErrBlacklistedChannel) :=
  ⟨(blacklisted_assignment_rejected dbC3w updC3w pkgC3w chanC3w "cNew" 7 rfl
      (by decide) (by decide)).1 rfl rfl rfl,
   (blacklisted_assignment_rejected dbC3w updC3w pkgC3w chanC3w "cNew" 7 rfl
      (by decide) (by decide)).2 rfl rfl rfl⟩

/-! ### C4 -/

/-- C4 as stated is refuted: clearing a channel's package pointer (updating it
to the empty reference) changes the stored pointer through a successful
`UpdateChannel` yet emits no activity record. -/
theorem channel_activity_counterexample :
    chanC4.PackageID ≠ clrC4.PackageID ∧
    (UpdateChannel dbC4 clrC4).2 = Except.ok () ∧
    (UpdateChannel dbC4 clrC4).1.channels = [clrC4] ∧
    (UpdateChannel dbC4 clrC4).1.activity = [] := by
  refine ⟨by decide, rfl, rfl, rfl⟩

/-- C4 (amended): on every package-pointer change performed through a
successful `UpdateChannel` whose new package reference is non-empty, exactly
one channel activity record describing the change is emitted (appended to the
activity log); no record is emitted when the pointer does not change, nor when
the new reference is empty. -/
theorem channel_activity_on_package_change (db : DB) (channel before : Channel)
    (hbefore : GetChannel db channel.ID = Except.ok before)
    (hok : (UpdateChannel db channel).2 = Except.ok ()) :
    (before.PackageID ≠ channel.PackageID → channel.PackageID ≠ "" →
      ∃ pkg, GetPackage db channel.PackageID = Except.ok pkg ∧
        (UpdateChannel db channel).1.activity = db.activity ++
          [{ Class := activityChannelPackageUpdated, Severity := activityInfo,
             Version := pkg.Version, ApplicationID := pkg.ApplicationID,
             ChannelID := channel.ID }]) ∧
    (before.PackageID = channel.PackageID →
      (UpdateChannel db channel).1.activity = db.activity) ∧
    (channel.PackageID = "" →
      (UpdateChannel db channel).1.activity = db.activity) := by
  obtain ⟨row, hmem, hid, hfind, hres⟩ := GetChannel_ok_row hbefore
  have hrow : ∃ c ∈ db.channels, c.ID = channel.ID := ⟨row, hmem, hid⟩
  have hcount : db.channels.countP (fun c => c.ID == channel.ID) ≠ 0 := by
    have hpos : 0 < db.channels.countP (fun c => c.ID == channel.ID) :=
      List.countP_pos_iff.mpr ⟨row, hmem, by simp [hid]⟩
    omega
  by_cases hne : channel.PackageID = ""
  · have heq := updateChannel_clear_eq db channel hne hrow
    have hact : (UpdateChannel db channel).1.activity = db.activity := by
      rw [heq]
      rfl
    exact ⟨fun _ h2 => absurd hne h2, fun _ => hact, fun _ => hact⟩
  · cases hval : validatePackage db channel.PackageID channel.ID
        before.ApplicationID before.Arch with
    | error e =>
      have heq := updateChannel_eq_of_validate_err db channel before e hbefore
        hne hval
      rw [heq] at hok
      cases hok
    | ok p =>
      have heq := updateChannel_eq_of_validate_ok db channel before p hbefore
        hne hval hcount
      have hget : GetPackage db channel.PackageID = Except.ok p :=
        (validatePackage_ok hval).1
      refine ⟨fun hchg _ => ⟨p, hget, ?_⟩, fun hsame => ?_, fun h0 => absurd h0 hne⟩
      · rw [heq, if_pos hchg]
        rfl
      · rw [heq, if_neg (by simp [hsame])]
        rfl

theorem channel_activity_on_package_change_witness :
    ∃ pkg, GetPackage dbC4w updC4w.PackageID = Except.ok pkg ∧
      (UpdateChannel dbC4w updC4w).1.activity = dbC4w.activity ++
        [{ Class := activityChannelPackageUpdated, Severity := activityInfo,
           Version := pkg.Version, ApplicationID := pkg.ApplicationID,
           ChannelID := updC4w.ID }] :=
  (channel_activity_on_package_change dbC4w updC4w
    (resolveChannel dbC4w chanC4w) rfl rfl).1 (by decide) (by decide)

/-! ### C2 -/

theorem addChannel_preserves_invariant (db : DB) (channel : Channel)
    (newID : String) (now : Nat)
    (hupkg : uniquePackageIDs db) (hinv : channelPackageInvariant db)
    (hfresh : ∀ pkg ∈ db.packages, newID ∉ pkg.ChannelsBlacklist) :
    channelPackageInvariant (AddChannel db channel newID now).1 := by
  unfold AddChannel
  cases harch : Arch.IsValid channel.Arch with
  | false => exact hinv
  | true =>
    simp only [Bool.not_true, Bool.false_eq_true, if_false]
    split
    · exact hinv
    · rename_i u heq
      intro c hc hcne pkg' hpkg' hpid
      rcases List.mem_append.mp hc with hcl | hcr
      · exact hinv c hcl hcne pkg' hpkg' hpid
      · have hc' := List.mem_singleton.mp hcr
        subst hc'
        have hne : channel.PackageID ≠ "" := hcne
        rw [if_pos hne] at heq
        cases hv : validatePackage db channel.PackageID channel.ID
            channel.ApplicationID channel.Arch with
        | error e => rw [hv] at heq; simp [Except.map] at heq
        | ok p =>
          obtain ⟨hget, happ, harch2, _⟩ := validatePackage_ok hv
          have hpeq : pkg' = p :=
            find_unique_pkg hupkg (GetPackage_ok_find hget) pkg' hpkg' hpid
          subst hpeq
          exact ⟨happ, harch2, hfresh pkg' hpkg'⟩

theorem updateChannel_preserves_invariant (db : DB) (channel : Channel)
    (hupkg : uniquePackageIDs db) (huch : uniqueChannelIDs db)
    (hinv : channelPackageInvariant db) :
    channelPackageInvariant (UpdateChannel db channel).1 := by
  unfold UpdateChannel
  split
  · exact hinv
  · rename_i before heq
    split
    · exact hinv
    · rename_i pkg heq2
      obtain ⟨row, hmem, hid, hfind, hres⟩ := GetChannel_ok_row heq
      have hmain : ∀ c' ∈ db.channels.map (fun c =>
          if c.ID == channel.ID then
            { c with Name := channel.Name, Color := channel.Color,
                     PackageID := channel.PackageID }
          else c),
          c'.PackageID ≠ "" → ∀ pkg' ∈ db.packages, pkg'.ID = c'.PackageID →
          pkg'.ApplicationID = c'.ApplicationID ∧ pkg'.Arch = c'.Arch ∧
          c'.ID ∉ pkg'.ChannelsBlacklist := by
        intro c' hc' hcne pkg' hpkg' hpid
        obtain ⟨c, hc, hfc⟩ := List.mem_map.mp hc'
        by_cases hcid : (c.ID == channel.ID) = true
        · rw [if_pos hcid] at hfc
          have hceq : c = row :=
            find_unique_chan huch hfind c hc (by simpa using hcid)
          subst hfc
          have hne : channel.PackageID ≠ "" := hcne
          rw [if_pos hne] at heq2
          cases hv : validatePackage db channel.PackageID channel.ID
              before.ApplicationID before.Arch with
          | error e => rw [hv] at heq2; simp [Except.map] at heq2
          | ok p =>
            obtain ⟨hget, happ, harch2, hblk⟩ := validatePackage_ok hv
            have hpeq : pkg' = p :=
              find_unique_pkg hupkg (GetPackage_ok_find hget) pkg' hpkg' hpid
            subst hpeq
            have happ2 : before.ApplicationID = c.ApplicationID := by
              rw [hres, hceq]
              rfl
            have harch3 : before.Arch = c.Arch := by
              rw [hres, hceq]
              rfl
            have hcid' : c.ID = channel.ID := by simpa using hcid
            refine ⟨?_, ?_, ?_⟩
            · show pkg'.ApplicationID = c.ApplicationID
              rw [happ, happ2]
            · show pkg'.Arch = c.Arch
              rw [harch2, harch3]
            · show c.ID ∉ pkg'.ChannelsBlacklist
              rw [hcid']
              exact hblk
        · rw [if_neg hcid] at hfc
          subst hfc
          exact hinv c hc hcne pkg' hpkg' hpid
      split
      · rename_i db' e heq3
        have hch : db'.channels = db.channels.map (fun c =>
            if c.ID == channel.ID then
              { c with Name := channel.Name, Color := channel.Color,
                       PackageID := channel.PackageID }
            else c) := by
          have h1 : (updateChannelExec db channel).1 = db' := by rw [heq3]
          rw [← h1]
          rfl
        have hp : db'.packages = db.packages := by
          have h1 : (updateChannelExec db channel).1 = db' := by rw [heq3]
          rw [← h1]
          rfl
        intro c' hc' hcne pkg' hpkg' hpid
        rw [hp] at hpkg'
        rw [hch] at hc'
        exact hmain c' hc' hcne pkg' hpkg' hpid
      · rename_i db' u heq3
        have hch : db'.channels = db.channels.map (fun c =>
            if c.ID == channel.ID then
              { c with Name := channel.Name, Color := channel.Color,
                       PackageID := channel.PackageID }
            else c) := by
          have h1 : (updateChannelExec db channel).1 = db' := by rw [heq3]
          rw [← h1]
          rfl
        have hp : db'.packages = db.packages := by
          have h1 : (updateChannelExec db channel).1 = db' := by rw [heq3]
          rw [← h1]
          rfl
        have hfin : ∀ X : DB, X.channels = db'.channels →
            X.packages = db'.packages → channelPackageInvariant X := by
          intro X hXc hXp c' hc' hcne pkg' hpkg' hpid
          rw [hXp, hp] at hpkg'
          rw [hXc, hch] at hc'
          exact hmain c' hc' hcne pkg' hpkg' hpid
        split
        · split
          · exact hfin _ rfl rfl
          · exact hfin _ rfl rfl
        · exact hfin _ rfl rfl

theorem deleteChannel_preserves_invariant (db : DB) (channelID : String)
    (hinv : channelPackageInvariant db) :
    channelPackageInvariant (DeleteChannel db channelID).1 := by
  intro c hc hcne pkg hpkg hpid
  have hc' : c ∈ db.channels := List.mem_of_mem_filter hc
  exact hinv c hc' hcne pkg hpkg hpid

/-- C2 as stated is refuted: `AddChannel` validates the blacklist against the
caller-supplied channel id before the store generates the inserted row's id,
so a package whose blacklist contains the id the store then generates is
accepted, and the resulting store holds a channel pointing to a package that
blacklists it. -/
theorem channel_invariant_counterexample :
    channelPackageInvariant dbC2 ∧
    (AddChannel dbC2 chanC2 "cGen" 0).2 =
      Except.ok { chanC2 with ID := "cGen", CreatedTs := 0 } ∧
    ¬ channelPackageInvariant (AddChannel dbC2 chanC2 "cGen" 0).1 := by
  refine ⟨by decide, rfl, by decide⟩

/-- C2 (amended): provided the store-generated identifier of an inserted
channel is not in any stored package's channels blacklist (AddChannel can only
check the blacklist against the caller-supplied id, before the new id is
generated), every channel accepted by `AddChannel` or `UpdateChannel` with a
non-empty package reference points to a package of the same owning application
and architecture that does not blacklist it, and the invariant is preserved by
every channel operation (on stores whose channel and package ids are primary
keys). -/
theorem channel_invariant_preserved (db : DB) (channel : Channel)
    (newID : String) (now : Nat) (channelID : String)
    (hupkg : uniquePackageIDs db) (huch : uniqueChannelIDs db)
    (hinv : channelPackageInvariant db)
    (hfresh : ∀ pkg ∈ db.packages, newID ∉ pkg.ChannelsBlacklist) :
    channelPackageInvariant (AddChannel db channel newID now).1 ∧
    channelPackageInvariant (UpdateChannel db channel).1 ∧
    channelPackageInvariant (DeleteChannel db channelID).1 :=
  ⟨addChannel_preserves_invariant db channel newID now hupkg hinv hfresh,
   updateChannel_preserves_invariant db channel hupkg huch hinv,
   deleteChannel_preserves_invariant db channelID hinv⟩

theorem channel_invariant_preserved_witness :
    channelPackageInvariant (AddChannel dbC2w updC2w "cNew" 1).1 ∧
    channelPackageInvariant (UpdateChannel dbC2w updC2w).1 ∧
    channelPackageInvariant (DeleteChannel dbC2w "cw").1 :=
  channel_invariant_preserved dbC2w updC2w "cNew" 1 "cw" (by decide)
    (by decide) (by decide) (by decide)

/-! ### C10 -/

theorem validatePaginationParams_idem (page perPage : Nat) :
    validatePaginationParams (validatePaginationParams page perPage).1
      (validatePaginationParams page perPage).2 =
      validatePaginationParams page perPage := by
  unfold validatePaginationParams
  by_cases h1 : page < 1 <;> by_cases h2 : perPage < 1 <;>
    by_cases h3 : perPage > 100 <;>
      simp [h1, h2, h3]

theorem pairwise_name_sublist {l l' : List Channel}
    (hsub : List.Sublist l' l) (h : l.Pairwise nameLE) : l'.Pairwise nameLE :=
  h.sublist hsub

/-- C10: `GetChannels` returns the channels of the given application sorted by
name in ascending order, paginated after the pagination parameters have been
validated (already-validated parameters are a fixpoint, and the page size
bounds the result length); `getSpecificChannels` returns the channels whose id
is among those requested, sorted by name in ascending order. -/
theorem getChannels_sorted (db : DB) (appID : String) (page perPage : Nat)
    (channelIDs : List String) :
    ((GetChannels db appID page perPage).Pairwise
      (fun a b => a.Name ≤ b.Name)) ∧
    (∀ c ∈ GetChannels db appID page perPage, c.ApplicationID = appID) ∧
    ((GetChannels db appID page perPage).length ≤
      (validatePaginationParams page perPage).2) ∧
    (GetChannels db appID page perPage =
      GetChannels db appID (validatePaginationParams page perPage).1
        (validatePaginationParams page perPage).2) ∧
    ((getSpecificChannels db channelIDs).Pairwise
      (fun a b => a.Name ≤ b.Name)) ∧
    (∀ c ∈ getSpecificChannels db channelIDs, c.ID ∈ channelIDs) := by
  refine ⟨?_, ?_, ?_, ?_, ?_, ?_⟩
  · unfold GetChannels
    rw [List.pairwise_map]
    refine List.Pairwise.imp (fun hab => hab) ?_
    refine pairwise_name_sublist ?_
      (List.sorted_insertionSort nameLE
        (db.channels.filter (fun c => c.ApplicationID == appID)))
    exact (List.take_sublist _ _).trans (List.drop_sublist _ _)
  · intro c hc
    unfold GetChannels at hc
    obtain ⟨c0, hc0, hc0e⟩ := List.mem_map.mp hc
    have hc1 : c0 ∈ (db.channels.filter
        (fun c => c.ApplicationID == appID)).insertionSort nameLE :=
      List.mem_of_mem_drop (List.mem_of_mem_take hc0)
    rw [List.mem_insertionSort] at hc1
    have : c0.ApplicationID = appID := by
      have happ := (List.mem_filter.mp hc1).2
      simpa using happ
    rw [← hc0e]
    exact this
  · unfold GetChannels
    rw [List.length_map]
    exact List.length_take_le _ _
  · unfold GetChannels
    rw [validatePaginationParams_idem]
  · unfold getSpecificChannels
    rw [List.pairwise_map]
    refine List.Pairwise.imp (fun hab => hab) ?_
    exact List.sorted_insertionSort nameLE
      (db.channels.filter (fun c => channelIDs.contains c.ID))
  · intro c hc
    unfold getSpecificChannels at hc
    obtain ⟨c0, hc0, hc0e⟩ := List.mem_map.mp hc
    rw [List.mem_insertionSort] at hc0
    have : c0.ID ∈ channelIDs := by
      have hmem := (List.mem_filter.mp hc0).2
      simpa using hmem
    rw [← hc0e]
    exact this

theorem getChannels_sorted_witness :
    chanC10c.ApplicationID = "appY" ∧ chanC10c.ID ∈ ["cc"] := by
  have hmem : chanC10c ∈ GetChannels dbC10 "appY" 1 10 := by
    have h : GetChannels dbC10 "appY" 1 10 = [chanC10c] := by rfl
    rw [h]
    exact List.mem_singleton.mpr rfl
  have hmem2 : chanC10c ∈ getSpecificChannels dbC10 ["cc"] := by
    have h : getSpecificChannels dbC10 ["cc"] = [chanC10c] := by rfl
    rw [h]
    exact List.mem_singleton.mpr rfl
  exact ⟨(getChannels_sorted dbC10 "appY" 1 10 ["cc"]).2.1 chanC10c hmem,
    (getChannels_sorted dbC10 "appY" 1 10 ["cc"]).2.2.2.2.2 chanC10c hmem2⟩

end Nebraska
